import Mathlib

/-! Verification development for the METplus time-parameterized file-discovery
and command-assembly engine.  The definitions below are a shallow embedding of
the Python source in src/metplus/wrappers/grid_diag_wrapper.py and
src/ush/series_by_lead.py: pure functions become Lean functions, imperative
loops become structural recursion over the iterated list, external
collaborators (regex matching, filesystem discovery, the parent wrapper
class) become explicit function parameters, and process state (the
environment, file contents) is threaded explicitly. -/

namespace METplus

/-! ## Embedding of src/ush/series_by_lead.py, retrieve_fhr_tiles -/

/-- Loop body of `retrieve_fhr_tiles` (src/ush/series_by_lead.py lines
795-817).  `regex_match` embeds `re.match(type_regex, cur_tile)`.  On a match the
tile name and a newline are appended to the accumulator `fhr_tiles`; on a
mismatch the function logs an error and returns the empty string immediately,
discarding the accumulator. -/
def retrieve_fhr_tiles_go (regex_match : String → Bool) (fhr_tiles : String) :
    List String → String
  | [] => fhr_tiles
  | cur_tile :: rest =>
    if regex_match cur_tile then
      retrieve_fhr_tiles_go regex_match (fhr_tiles ++ cur_tile ++ "\n") rest
    else
      ""

/-- `retrieve_fhr_tiles` (src/ush/series_by_lead.py lines 771-819): builds a
newline-separated string of the tile names in `tile_list` that match the type
regex, starting from the empty accumulator. -/
def retrieve_fhr_tiles (regex_match : String → Bool) (tile_list : List String) :
    String :=
  retrieve_fhr_tiles_go regex_match "" tile_list

/-- The string consisting of each tile name followed by a newline, in order;
the shape `retrieve_fhr_tiles` is claimed to produce when every entry
matches the type regex. -/
def tile_lines : List String → String
  | [] => ""
  | t :: rest => t ++ "\n" ++ tile_lines rest

/-! ## Embedding of GridDiagWrapper.find_input_files and
get_files_from_time (src/metplus/wrappers/grid_diag_wrapper.py) -/

/-- Loop body of `GridDiagWrapper.find_input_files` (lines 236-245).
`find_data` embeds `self.find_data(time_info, return_list=True)` for a given
input template (the template is stored into `c_dict['INPUT_TEMPLATE']` before
the call); it yields `none` for Python `None` and `some files` for a returned
list.  A falsy result (`None` or the empty list, Python `if not input_files`)
is skipped with `continue`; otherwise the files extend the accumulator. -/
def find_input_files_go (find_data : String → Option (List String))
    (all_input_files : List String) : List String → List String
  | [] => all_input_files
  | input_template :: rest =>
    match find_data input_template with
    | none => find_input_files_go find_data all_input_files rest
    | some input_files =>
      if input_files.isEmpty then
        find_input_files_go find_data all_input_files rest
      else
        find_input_files_go find_data (all_input_files ++ input_files) rest

/-- `GridDiagWrapper.find_input_files` (lines 230-245).  The Python function
is documented to return "Input file list if all files were found, None if
not", so its value lives in the optional-list domain; the body, however,
unconditionally ends with `return all_input_files`. -/
def find_input_files (find_data : String → Option (List String))
    (input_templates : List String) : Option (List String) :=
  some (find_input_files_go find_data [] input_templates)

/-- A runtime's file dictionary: the Python dict with keys `'time_info'` and
`'input'` used both for entries of `c_dict['ALL_FILES']` and for the value
built by `get_files_from_time`. -/
structure FileDict (τ : Type) where
  time_info : τ
  input : List String
deriving DecidableEq

/-- Modelled from the spec and the src docstring (grid_diag_wrapper.py lines
259-261): the parent implementation of `get_files_from_time`, absent from
src/, "creates a dictionary and adds the time_info to it". -/
def super_get_files_from_time {τ : Type} (time_info : τ) : FileDict τ :=
  { time_info := time_info, input := [] }

/-- `GridDiagWrapper.get_files_from_time` (lines 257-275): builds the parent
dictionary, calls `find_input_files`, returns `None` if that returned `None`,
and otherwise stores the file list under the `'input'` key. -/
def get_files_from_time {τ : Type} (find_data : String → Option (List String))
    (input_templates : List String) (time_info : τ) : Option (FileDict τ) :=
  let file_dict := super_get_files_from_time time_info
  match find_input_files find_data input_templates with
  | none => none
  | some input_files => some { file_dict with input := input_files }

/-! ## Embedding of GridDiagWrapper.get_command and
set_command_line_arguments -/

/-- `GridDiagWrapper.get_command` (lines 138-154): starts from the app path,
appends one ` -data <infile>` per input file in order, then the joined other
arguments, then ` -out <path>`, then a trailing ` -v <verbosity>`. -/
def get_command (app_path : String) (infiles : List String)
    (args : List String) (out_path : String) (verbosity : String) : String :=
  let cmd := app_path
  let cmd := infiles.foldl (fun c infile => c ++ " -data " ++ infile) cmd
  let cmd := cmd ++ " " ++ String.intercalate " " args
  let cmd := cmd ++ " -out " ++ out_path
  let cmd := cmd ++ " -v " ++ verbosity
  cmd

/-- `GridDiagWrapper.set_command_line_arguments` (lines 247-255):
appends `-config <templated config file>` to the argument list;
`do_string_sub` embeds the template substitution applied to
`c_dict['CONFIG_FILE']`. -/
def set_command_line_arguments (do_string_sub : String → String)
    (args : List String) (config_file : String) : List String :=
  args ++ ["-config " ++ do_string_sub config_file]

/-- The spec's description of the input-file portion of the command: one
`-data` flag per input file, in the order supplied. -/
def spec_data_flags : List String → String
  | [] => ""
  | infile :: rest => " -data " ++ infile ++ spec_data_flags rest

/-! ## Time contexts and GridDiagWrapper.get_list_file_name -/

/-- A concrete datetime value, standing for the Python `datetime` objects
held in `time_info['init']` and `time_info['valid']`. -/
structure Datetime where
  year : Nat
  month : Nat
  day : Nat
  hour : Nat
  minute : Nat
  second : Nat
deriving DecidableEq

/-- Zero-padding of a numeral to a given width, as `strftime` does for each
format directive. -/
def pad_zeros (width : Nat) (n : Nat) : String :=
  let s := toString n
  if s.length < width then
    String.mk (List.replicate (width - s.length) (Char.ofNat 48)) ++ s
  else
    s

/-- `t.strftime('%Y%m%d%H%M%S')` on a concrete datetime: four-digit year then
two digits for month, day, hour, minute, second. -/
def strftime_YmdHMS (t : Datetime) : String :=
  pad_zeros 4 t.year ++ pad_zeros 2 t.month ++ pad_zeros 2 t.day ++
    pad_zeros 2 t.hour ++ pad_zeros 2 t.minute ++ pad_zeros 2 t.second

/-- One time axis of a runtime's `time_info` dictionary: either the wildcard
(the Python string `'*'`) or a concrete value. -/
inductive TimeAxis (α : Type) where
  | wildcard
  | concrete (v : α)
deriving DecidableEq

/-- The `time_info` dictionary of a runtime restricted to the entries
`get_list_file_name` and the subsetter look at: the three independent time
axes plus the custom loop string.  Lead values are carried as signed seconds
counts. -/
structure TimeInfo where
  init : TimeAxis Datetime
  valid : TimeAxis Datetime
  lead : TimeAxis Int
  custom : String
deriving DecidableEq

/-- `GridDiagWrapper.get_list_file_name` (lines 302-328): each of the three
axes becomes the literal `ALL` when it is the wildcard; a concrete init or
valid becomes `strftime('%Y%m%d%H%M%S')`; a concrete lead goes through
`time_util.ti_get_seconds_from_lead` (a utility outside src/, taken here as
the function parameter `ti_get_seconds_from_lead`) and is rendered as a
decimal numeral. -/
def get_list_file_name
    (ti_get_seconds_from_lead : Int → TimeAxis Datetime → Int)
    (time_info : TimeInfo) : String :=
  let init :=
    match time_info.init with
    | TimeAxis.wildcard => "ALL"
    | TimeAxis.concrete t => strftime_YmdHMS t
  let valid :=
    match time_info.valid with
    | TimeAxis.wildcard => "ALL"
    | TimeAxis.concrete t => strftime_YmdHMS t
  let lead :=
    match time_info.lead with
    | TimeAxis.wildcard => "ALL"
    | TimeAxis.concrete l => toString (ti_get_seconds_from_lead l time_info.valid)
  "grid_diag_files_init_" ++ init ++ "_valid_" ++ valid ++ "_lead_" ++
    lead ++ ".txt"

/-- Rendering of a single init or valid axis as claimed by the spec: the
literal token `ALL` for a wildcard, the fixed timestamp layout otherwise. -/
def init_valid_render : TimeAxis Datetime → String
  | TimeAxis.wildcard => "ALL"
  | TimeAxis.concrete t => strftime_YmdHMS t

/-- Rendering of the lead axis as claimed by the spec: `ALL` for a wildcard,
the lead's seconds count otherwise. -/
def lead_render (ti_get_seconds_from_lead : Int → TimeAxis Datetime → Int)
    (time_info : TimeInfo) : String :=
  match time_info.lead with
  | TimeAxis.wildcard => "ALL"
  | TimeAxis.concrete l => toString (ti_get_seconds_from_lead l time_info.valid)

/-! ## Embedding of GridDiagWrapper.subset_input_files and
run_at_time_custom -/

/-- Loop body of `GridDiagWrapper.subset_input_files` (lines 286-292): every
entry of `c_dict['ALL_FILES']` whose time information matches the current
run's (`compare_time_info`, inherited from the parent wrapper and taken here
as a function parameter) contributes its `'input'` files, in catalog order. -/
def subset_matching_go (compare_time_info : TimeInfo → TimeInfo → Bool)
    (time_info : TimeInfo) (all_input_files : List String) :
    List (FileDict TimeInfo) → List String
  | [] => all_input_files
  | file_dict :: rest =>
    if compare_time_info time_info file_dict.time_info then
      subset_matching_go compare_time_info time_info
        (all_input_files ++ file_dict.input) rest
    else
      subset_matching_go compare_time_info time_info all_input_files rest

/-- `GridDiagWrapper.subset_input_files` (lines 277-300): collects the
matching input files; if none matched it returns `None`, otherwise it writes
the list file (`write_list_file`, inherited from the parent wrapper, taken as
a parameter returning the written file's path) named by
`get_list_file_name`. -/
def subset_input_files (compare_time_info : TimeInfo → TimeInfo → Bool)
    (all_files : List (FileDict TimeInfo))
    (write_list_file : String → List String → String)
    (ti_get_seconds_from_lead : Int → TimeAxis Datetime → Int)
    (time_info : TimeInfo) : Option String :=
  let all_input_files :=
    subset_matching_go compare_time_info time_info [] all_files
  if all_input_files.isEmpty then
    none
  else
    let list_file_name := get_list_file_name ti_get_seconds_from_lead time_info
    some (write_list_file list_file_name all_input_files)

/-- The observable steps of `GridDiagWrapper.run_at_time_custom` (lines
168-196), in source order; `buildCommand` and `execute` are the two phases of
the final `self.build()` call (modelled from the spec: the parent wrapper's
`build`, absent from src/, composes the command and only then launches the
subprocess). -/
inductive Step where
  | clear
  | subsetInputs
  | checkOutputPath
  | setDataField
  | getVerificationMask
  | setCommandLineArguments
  | setEnvironmentVariables
  | buildCommand
  | execute
deriving DecidableEq

/-- Terminal state of one runtime, following the spec's state machine:
`skipped` for the quiet early returns, `failed` when an error was recorded or
the subprocess exited non-zero, `succeeded` otherwise. -/
inductive Terminal where
  | skipped
  | failed
  | succeeded
deriving DecidableEq

/-- The collaborators `run_at_time_custom` calls into, bundled: the file
catalog `c_dict['ALL_FILES']` and the inherited-or-external helpers
(`compare_time_info`, `write_list_file`, `ti_get_seconds_from_lead`,
`find_and_check_output_file`) plus the outcome of `set_data_field` (whose
field parsing lives outside src/). -/
structure GridDiagRun where
  compare_time_info : TimeInfo → TimeInfo → Bool
  all_files : List (FileDict TimeInfo)
  write_list_file : String → List String → String
  ti_get_seconds_from_lead : Int → TimeAxis Datetime → Int
  find_and_check_output_file : TimeInfo → Bool
  set_data_field : TimeInfo → Bool

/-- `GridDiagWrapper.run_at_time_custom` (lines 168-196) as a step-trace
builder: each early `return` stops the trace where the source stops;
`exit_code` is the exit status of the launched subprocess (per the spec, 0 is
success and anything else failure).  An empty subset and a negative output
check return quietly (`skipped`); `set_data_field` returning `False` has
logged an error (`log_error`, line 212), so that runtime is `failed`. -/
def run_at_time_custom (r : GridDiagRun) (exit_code : Int)
    (time_info : TimeInfo) : List Step × Terminal :=
  match subset_input_files r.compare_time_info r.all_files r.write_list_file
      r.ti_get_seconds_from_lead time_info with
  | none => ([Step.clear, Step.subsetInputs], Terminal.skipped)
  | some _ =>
    if r.find_and_check_output_file time_info then
      if r.set_data_field time_info then
        ([Step.clear, Step.subsetInputs, Step.checkOutputPath,
          Step.setDataField, Step.getVerificationMask,
          Step.setCommandLineArguments, Step.setEnvironmentVariables,
          Step.buildCommand, Step.execute],
         if exit_code = 0 then Terminal.succeeded else Terminal.failed)
      else
        ([Step.clear, Step.subsetInputs, Step.checkOutputPath,
          Step.setDataField], Terminal.failed)
    else
      ([Step.clear, Step.subsetInputs, Step.checkOutputPath],
       Terminal.skipped)

/-- The complete step sequence of a runtime that reaches execution, in source
order. -/
def full_trace : List Step :=
  [Step.clear, Step.subsetInputs, Step.checkOutputPath, Step.setDataField,
   Step.getVerificationMask, Step.setCommandLineArguments,
   Step.setEnvironmentVariables, Step.buildCommand, Step.execute]

/-- A fully wildcarded time context with no custom string. -/
def ti_all_wild : TimeInfo :=
  { init := TimeAxis.wildcard, valid := TimeAxis.wildcard,
    lead := TimeAxis.wildcard, custom := "" }

/-- A run whose catalog holds one file but whose time comparison never
matches: the subset of every target context is empty. -/
def no_match_run : GridDiagRun :=
  { compare_time_info := fun _ _ => false,
    all_files := [{ time_info := ti_all_wild, input := ["input1.nc"] }],
    write_list_file := fun name _ => name,
    ti_get_seconds_from_lead := fun l _ => l,
    find_and_check_output_file := fun _ => true,
    set_data_field := fun _ => true }

/-- A run where every stage succeeds: the catalog entry matches, the output
path is clear and the field list parses. -/
def all_ok_run : GridDiagRun :=
  { compare_time_info := fun _ _ => true,
    all_files := [{ time_info := ti_all_wild, input := ["input1.nc"] }],
    write_list_file := fun name _ => name,
    ti_get_seconds_from_lead := fun l _ => l,
    find_and_check_output_file := fun _ => true,
    set_data_field := fun _ => true }

/-! ## Manifest writing in analysis_by_lead_time
(src/ush/series_by_lead.py) -/

/-- The manifest write of `analysis_by_lead_time` (lines 179-180 and
209-210): `with open(ascii_fcst_file, 'a') as f: f.write(fcst_tiles)`.  The
file is opened in append mode (`'a'`), so the written block lands after
whatever content the file already holds; the result is the file's content
after the call. -/
def write_tiles_ascii_file (existing_content : String) (tiles : String) :
    String :=
  existing_content ++ tiles

/-- Modelled from the spec: `writeManifest` "writes one path per line, in the
given order, overwriting any pre-existing manifest of the same name (no
append semantics — every invocation starts from empty content)". -/
def writeManifest (paths : List String) : String :=
  tile_lines paths

/-! ## The forecast-hour runtime loop of analysis_by_lead_time
(src/ush/series_by_lead.py lines 146-263) -/

/-- What one iteration of the forecast-hour loop observes: the tile strings
returned by `retrieve_fhr_tiles` for the FCST and ANLY categories, whether
each ASCII manifest write raised `IOError` (lines 182-185 and 212-214 catch
it and only log), and the exit status of the `series_analysis` subprocess for
each variable of `var_list` (line 261, `subprocess.check_output`). -/
structure FhrOutcome where
  fcst_tiles : String
  anly_tiles : String
  fcst_write_ok : Bool
  anly_write_ok : Bool
  exit_codes : List Int
deriving DecidableEq

/-- The inner per-variable loop (lines 230-263): `subprocess.check_output`
raises `CalledProcessError` at the first non-zero exit status, and no handler
surrounds the call, so the error escapes; otherwise every variable's command
runs. -/
def run_series_analysis_cmds : List Int → Except Int Unit
  | [] => Except.ok ()
  | code :: rest =>
    if code = 0 then run_series_analysis_cmds rest else Except.error code

/-- One forecast-hour iteration (lines 146-263): an empty FCST tile string
`continue`s to the next hour (lines 172-177), as does an empty ANLY tile
string (lines 202-207); an `IOError` while writing either ASCII file is
caught and logged (so `fcst_write_ok`/`anly_write_ok` do not affect control
flow); then the per-variable subprocess loop runs. -/
def process_fhr (oc : FhrOutcome) : Except Int Unit :=
  if oc.fcst_tiles.isEmpty then Except.ok ()
  else if oc.anly_tiles.isEmpty then Except.ok ()
  else run_series_analysis_cmds oc.exit_codes

/-- The forecast-hour runtime loop: iterates the outcomes in order; a raised
`CalledProcessError` propagates out of the loop (there is no enclosing
handler in `analysis_by_lead_time`), so iteration stops at the offending
hour.  Returns how many hours were iterated and the escaped error, if
any. -/
def runtime_loop : List FhrOutcome → Nat × Option Int
  | [] => (0, none)
  | oc :: rest =>
    match process_fhr oc with
    | Except.error code => (1, some code)
    | Except.ok _ =>
      let r := runtime_loop rest
      (r.1 + 1, r.2)

/-- A two-hour batch whose first hour's subprocess exits 1 and whose second
hour would succeed. -/
def failing_batch : List FhrOutcome :=
  [{ fcst_tiles := "FCST_TILE_F000.grb2\n",
     anly_tiles := "ANLY_TILE_F000.grb2\n",
     fcst_write_ok := true, anly_write_ok := true, exit_codes := [1] },
   { fcst_tiles := "FCST_TILE_F006.grb2\n",
     anly_tiles := "ANLY_TILE_F006.grb2\n",
     fcst_write_ok := true, anly_write_ok := true, exit_codes := [0] }]

/-- A two-hour batch exercising the contained soft failures: the first hour
has no tiles, the second hour's FCST manifest write raises `IOError` but all
subprocesses exit 0. -/
def contained_batch : List FhrOutcome :=
  [{ fcst_tiles := "", anly_tiles := "", fcst_write_ok := true,
     anly_write_ok := true, exit_codes := [] },
   { fcst_tiles := "FCST_TILE_F006.grb2\n",
     anly_tiles := "ANLY_TILE_F006.grb2\n",
     fcst_write_ok := false, anly_write_ok := true, exit_codes := [0, 0] }]

/-! ## Environment-variable handling -/

/-- The process environment (`os.environ`) and the wrapper's
`env_var_dict`, each an association list from variable name to value. -/
abbrev EnvMap := List (String × String)

/-- `os.environ[key] = value`: update the binding in place or add it. -/
def env_set : EnvMap → String → String → EnvMap
  | [], key, value => [(key, value)]
  | (k, v) :: rest, key, value =>
    if k = key then (key, value) :: rest
    else (k, v) :: env_set rest key value

/-- `os.environ.get(key)`. -/
def env_get : EnvMap → String → Option String
  | [], _ => none
  | (k, v) :: rest, key => if k = key then some v else env_get rest key

/-- `os.environ['STAT_LIST'] = tmp_stat_string` (src/ush/series_by_lead.py
lines 71-73): the quote-normalized statistics list is written into the global
process environment. -/
def set_stat_list_env (process_env : EnvMap) (tmp_stat_string : String) :
    EnvMap :=
  env_set process_env "STAT_LIST" tmp_stat_string

/-- The environment writes of one per-variable iteration
(src/ush/series_by_lead.py lines 237-242): `os.environ['NAME'] = name`,
`os.environ['LEVEL'] = level`, and when regridding with the MET tool
`os.environ['NAME'] = name + '_' + level`.  The function returns the global
process environment as the subsequent subprocess call and the rest of the
program see it: the source contains no save or restore of the prior
environment. -/
def set_series_var_env (process_env : EnvMap) (name level : String)
    (regrid_with_MET_tool : Bool) : EnvMap :=
  let process_env := env_set process_env "NAME" name
  let process_env := env_set process_env "LEVEL" level
  if regrid_with_MET_tool then
    env_set process_env "NAME" (name ++ "_" ++ level)
  else
    process_env

/-- The wrapper state `GridDiagWrapper.set_environment_variables` acts on:
the global process environment and the wrapper's own `env_var_dict`. -/
structure EnvState where
  process_env : EnvMap
  env_var_dict : EnvMap
deriving DecidableEq

/-- Modelled from the spec: `add_env_var` (inherited from the parent wrapper,
absent from src/) records a key/value pair in the wrapper's `env_var_dict`;
per the spec, building the env map performs no process-environment
mutation. -/
def add_env_var (s : EnvState) (key value : String) : EnvState :=
  { s with env_var_dict := env_set s.env_var_dict key value }

/-- The `c_dict` entries `GridDiagWrapper.set_environment_variables` reads
(each defaulting to the empty string when unset, as `c_dict.get(_, '')`
does). -/
structure GridDiagCDict where
  data_file_type : String
  data_field : String
  regrid_to_grid : String
  regrid_method : String
  regrid_width : String
  regrid_vld_thresh : String
  regrid_shape : String
  desc : String
  verification_mask : String

/-- `GridDiagWrapper.set_environment_variables`
(src/metplus/wrappers/grid_diag_wrapper.py lines 95-136): adds
DATA_FILE_TYPE, DATA_FIELD, the assembled REGRID_DICT string, DESC and
VERIF_MASK to the wrapper's env var dict via `add_env_var`, then calls the
parent's `set_environment_variables` (absent from src/; `super_env` models
it, acting on the env var dict only, per the spec's statement that env-map
building performs no environment mutation). -/
def grid_diag_set_environment_variables (super_env : EnvMap → EnvMap)
    (c : GridDiagCDict) (s : EnvState) : EnvState :=
  let s := add_env_var s "DATA_FILE_TYPE" c.data_file_type
  let s := add_env_var s "DATA_FIELD" c.data_field
  let regrid_dict_string :=
    if c.regrid_method ≠ "" ∨ c.regrid_width ≠ "" ∨
        c.regrid_vld_thresh ≠ "" ∨ c.regrid_shape ≠ "" ∨
        c.regrid_to_grid ≠ "" then
      "regrid = \x7b" ++ c.regrid_to_grid ++ c.regrid_method ++
        c.regrid_width ++ c.regrid_vld_thresh ++ c.regrid_shape ++ "\x7d"
    else ""
  let s := add_env_var s "REGRID_DICT" regrid_dict_string
  let s := add_env_var s "DESC" c.desc
  let s := add_env_var s "VERIF_MASK"
    (if c.verification_mask = "" then ""
     else "poly = " ++ c.verification_mask ++ ";")
  { s with env_var_dict := super_env s.env_var_dict }

end METplus

namespace METplus

/-! ## Helper lemmas -/

theorem retrieve_fhr_tiles_go_all (regex_match : String → Bool)
    (l : List String) :
    ∀ acc : String, (∀ t ∈ l, regex_match t = true) →
      retrieve_fhr_tiles_go regex_match acc l = acc ++ tile_lines l := by
  induction l with
  | nil => intro acc _; simp [retrieve_fhr_tiles_go, tile_lines]
  | cons t rest ih =>
    intro acc h
    have ht : regex_match t = true := h t (List.mem_cons_self t rest)
    have hrest : ∀ x ∈ rest, regex_match x = true := fun x hx =>
      h x (List.mem_cons_of_mem t hx)
    simp only [retrieve_fhr_tiles_go, ht, if_pos, tile_lines]
    rw [ih (acc ++ t ++ "\n") hrest]
    simp [String.append_assoc]

theorem retrieve_fhr_tiles_go_bad (regex_match : String → Bool)
    (l : List String) :
    ∀ acc : String, (∃ t ∈ l, regex_match t = false) →
      retrieve_fhr_tiles_go regex_match acc l = "" := by
  induction l with
  | nil => intro acc h; simp at h
  | cons t rest ih =>
    intro acc h
    by_cases ht : regex_match t = true
    · simp only [retrieve_fhr_tiles_go, ht, if_pos]
      apply ih
      rcases h with ⟨x, hx, hxf⟩
      rcases List.mem_cons.mp hx with h1 | h2
      · rw [h1] at hxf; rw [ht] at hxf; cases hxf
      · exact ⟨x, h2, hxf⟩
    · have : regex_match t = false := Bool.eq_false_iff.mpr ht
      simp [retrieve_fhr_tiles_go, this]

theorem find_input_files_go_eq (find_data : String → Option (List String))
    (templates : List String) :
    ∀ acc : List String,
      find_input_files_go find_data acc templates =
        acc ++ (templates.map fun t => (find_data t).getD []).flatten := by
  induction templates with
  | nil => intro acc; simp [find_input_files_go]
  | cons t rest ih =>
    intro acc
    cases hf : find_data t with
    | none => simp [find_input_files_go, hf, ih]
    | some files =>
      by_cases he : files.isEmpty
      · have : files = [] := List.isEmpty_iff.mp he
        simp [find_input_files_go, hf, he, ih, this]
      · simp [find_input_files_go, hf, he, ih, List.append_assoc]

theorem get_command_fold (infiles : List String) :
    ∀ s : String,
      infiles.foldl (fun c infile => c ++ " -data " ++ infile) s =
        s ++ spec_data_flags infiles := by
  induction infiles with
  | nil => intro s; simp [spec_data_flags]
  | cons f rest ih =>
    intro s
    simp only [List.foldl_cons, spec_data_flags, ih]
    simp [String.append_assoc]

/-! ## Claim theorems -/

/-- C10: for every tile list, `retrieve_fhr_tiles` returns the concatenation
of every entry each followed by a newline when every entry regex_match the type
regex, and returns the empty string as soon as any single entry fails to
match, discarding all previously matched tiles. -/
theorem retrieve_fhr_tiles_all_or_nothing (regex_match : String → Bool)
    (tile_list : List String) :
    ((∀ t ∈ tile_list, regex_match t = true) →
      retrieve_fhr_tiles regex_match tile_list = tile_lines tile_list) ∧
    ((∃ t ∈ tile_list, regex_match t = false) →
      retrieve_fhr_tiles regex_match tile_list = "") := by
  constructor
  · intro h
    unfold retrieve_fhr_tiles
    rw [retrieve_fhr_tiles_go_all regex_match tile_list "" h]
    simp
  · intro h
    unfold retrieve_fhr_tiles
    exact retrieve_fhr_tiles_go_bad regex_match tile_list "" h

/-- Witness for C10 at concrete inputs: a fully matching list yields the
newline-joined tiles, and a list whose second entry fails the regex yields
the empty string even though the first entry matched. -/
theorem retrieve_fhr_tiles_all_or_nothing_witness :
    retrieve_fhr_tiles (fun t => t ≠ "bad") ["FCST_TILE_F000.grb2", "FCST_TILE_F006.grb2"] =
      "FCST_TILE_F000.grb2\nFCST_TILE_F006.grb2\n" ∧
    retrieve_fhr_tiles (fun t => t ≠ "bad") ["FCST_TILE_F000.grb2", "bad"] = "" := by
  constructor
  · have h := (retrieve_fhr_tiles_all_or_nothing (fun t => t ≠ "bad")
      ["FCST_TILE_F000.grb2", "FCST_TILE_F006.grb2"]).1 (by decide)
    rw [h]; rfl
  · exact (retrieve_fhr_tiles_all_or_nothing (fun t => t ≠ "bad")
      ["FCST_TILE_F000.grb2", "bad"]).2 ⟨"bad", by decide, by decide⟩

/-- C7: when multiple input templates are configured, `find_input_files` runs
discovery once per template and concatenates the results in template order
with no deduplication; a template that finds no files contributes nothing and
does not abort discovery. -/
theorem find_input_files_concat (find_data : String → Option (List String))
    (input_templates : List String) :
    find_input_files find_data input_templates =
      some ((input_templates.map fun t => (find_data t).getD []).flatten) ∧
    ∀ x : String,
      ((input_templates.map fun t => (find_data t).getD []).flatten).count x =
        ((input_templates.map fun t => ((find_data t).getD []).count x)).sum := by
  constructor
  · unfold find_input_files
    rw [find_input_files_go_eq find_data input_templates []]
    simp
  · intro x
    rw [List.count_flatten]
    simp [Function.comp_def]

/-- C9: `find_input_files` always returns a list (never `None`), so the
`None`-returning branch of `get_files_from_time` is unreachable and
`get_files_from_time` always returns a dictionary carrying the `'input'`
key. -/
theorem find_input_files_never_none {τ : Type}
    (find_data : String → Option (List String))
    (input_templates : List String) (time_info : τ) :
    (find_input_files find_data input_templates).isSome = true ∧
    get_files_from_time find_data input_templates time_info =
      some { time_info := time_info,
             input := (input_templates.map fun t => (find_data t).getD []).flatten } := by
  have h : find_input_files find_data input_templates =
      some ((input_templates.map fun t => (find_data t).getD []).flatten) := by
    unfold find_input_files
    rw [find_input_files_go_eq find_data input_templates []]
    simp
  constructor
  · rw [h]; rfl
  · simp only [get_files_from_time, h, super_get_files_from_time]

/-- C6: the built command consists of the executable path, then one `-data`
flag per input file in the supplied order, then the other arguments, then the
output path via `-out`, ending with a trailing `-v <level>` flag. -/
theorem get_command_shape (app_path : String) (infiles : List String)
    (args : List String) (out_path : String) (verbosity : String) :
    get_command app_path infiles args out_path verbosity =
      app_path ++ spec_data_flags infiles ++ " " ++
        String.intercalate " " args ++ " -out " ++ out_path ++
        " -v " ++ verbosity ∧
    ∃ s : String,
      get_command app_path infiles args out_path verbosity =
        s ++ " -v " ++ verbosity := by
  have h : get_command app_path infiles args out_path verbosity =
      app_path ++ spec_data_flags infiles ++ " " ++
        String.intercalate " " args ++ " -out " ++ out_path ++
        " -v " ++ verbosity := by
    simp only [get_command]
    rw [get_command_fold infiles app_path]
  exact ⟨h, app_path ++ spec_data_flags infiles ++ " " ++
    String.intercalate " " args ++ " -out " ++ out_path, h⟩

theorem subset_matching_go_of_no_match
    (compare_time_info : TimeInfo → TimeInfo → Bool) (time_info : TimeInfo)
    (all_files : List (FileDict TimeInfo)) :
    ∀ acc : List String,
      (∀ fd ∈ all_files, compare_time_info time_info fd.time_info = false) →
      subset_matching_go compare_time_info time_info acc all_files = acc := by
  induction all_files with
  | nil => intro acc _; rfl
  | cons fd rest ih =>
    intro acc h
    have hfd : compare_time_info time_info fd.time_info = false :=
      h fd (List.mem_cons_self fd rest)
    simp only [subset_matching_go, hfd, Bool.false_eq_true, if_false]
    exact ih acc fun x hx => h x (List.mem_cons_of_mem fd hx)

/-- C4: the generated list-file name renders each wildcard axis as the
literal token `ALL` and each concrete init/valid axis in the fixed
`%Y%m%d%H%M%S` layout, producing
`grid_diag_files_init_<INIT>_valid_<VALID>_lead_<LEAD>.txt`; being a pure
function of the time context, the same context always yields the same
name. -/
theorem get_list_file_name_format
    (ti_get_seconds_from_lead : Int → TimeAxis Datetime → Int)
    (time_info : TimeInfo) :
    get_list_file_name ti_get_seconds_from_lead time_info =
      "grid_diag_files_init_" ++ init_valid_render time_info.init ++
        "_valid_" ++ init_valid_render time_info.valid ++
        "_lead_" ++ lead_render ti_get_seconds_from_lead time_info ++
        ".txt" ∧
    init_valid_render TimeAxis.wildcard = "ALL" ∧
    lead_render ti_get_seconds_from_lead
      { time_info with lead := TimeAxis.wildcard } = "ALL" := by
  refine ⟨?_, rfl, rfl⟩
  rcases time_info with ⟨i, v, l, c⟩
  cases i <;> cases v <;> cases l <;> rfl

/-- C3: for every target time context whose subset of the file catalog is
empty, the subsetter accumulates the empty sequence (not an error),
`subset_input_files` returns `None`, and the runtime ends `skipped` — the
trace stops before any command is built or executed, and the terminal state
is never `failed`. -/
theorem empty_subset_skips (r : GridDiagRun) (exit_code : Int)
    (time_info : TimeInfo)
    (h : ∀ fd ∈ r.all_files,
      r.compare_time_info time_info fd.time_info = false) :
    subset_matching_go r.compare_time_info time_info [] r.all_files = [] ∧
    subset_input_files r.compare_time_info r.all_files r.write_list_file
      r.ti_get_seconds_from_lead time_info = none ∧
    (run_at_time_custom r exit_code time_info).2 = Terminal.skipped ∧
    (run_at_time_custom r exit_code time_info).1.contains
      Step.buildCommand = false ∧
    (run_at_time_custom r exit_code time_info).1.contains
      Step.execute = false := by
  have h0 : subset_matching_go r.compare_time_info time_info []
      r.all_files = [] :=
    subset_matching_go_of_no_match r.compare_time_info time_info
      r.all_files [] h
  have h1 : subset_input_files r.compare_time_info r.all_files
      r.write_list_file r.ti_get_seconds_from_lead time_info = none := by
    simp [subset_input_files, h0]
  have h2 : run_at_time_custom r exit_code time_info =
      ([Step.clear, Step.subsetInputs], Terminal.skipped) := by
    simp [run_at_time_custom, h1]
  refine ⟨h0, h1, ?_, ?_, ?_⟩ <;> rw [h2] <;> rfl

/-- Witness for C3: in a concrete run whose time comparison rejects the one
catalog entry, the runtime is skipped and neither command building nor
execution appears in the trace. -/
theorem empty_subset_skips_witness :
    (run_at_time_custom no_match_run 0 ti_all_wild).2 = Terminal.skipped ∧
    (run_at_time_custom no_match_run 0 ti_all_wild).1.contains
      Step.execute = false :=
  ⟨(empty_subset_skips no_match_run 0 ti_all_wild (by decide)).2.2.1,
   (empty_subset_skips no_match_run 0 ti_all_wild (by decide)).2.2.2.2⟩

/-- C8: within every runtime, the emitted step trace is a prefix of the full
in-order sequence (subsetting, then output path, then field resolution, then
command building, then execution), execution occurs only when no earlier step
skipped (the trace is then the complete sequence), and in that sequence input
subsetting strictly precedes command building, which strictly precedes
execution. -/
theorem run_at_time_custom_order (r : GridDiagRun) (exit_code : Int)
    (time_info : TimeInfo) :
    (∃ k, (run_at_time_custom r exit_code time_info).1 =
      full_trace.take k) ∧
    ((run_at_time_custom r exit_code time_info).1.contains
        Step.execute = true →
      (run_at_time_custom r exit_code time_info).1 = full_trace) ∧
    full_trace.indexOf Step.subsetInputs <
      full_trace.indexOf Step.buildCommand ∧
    full_trace.indexOf Step.buildCommand <
      full_trace.indexOf Step.execute := by
  have htr : (run_at_time_custom r exit_code time_info).1 =
        full_trace.take 2 ∨
      (run_at_time_custom r exit_code time_info).1 = full_trace.take 3 ∨
      (run_at_time_custom r exit_code time_info).1 = full_trace.take 4 ∨
      (run_at_time_custom r exit_code time_info).1 = full_trace := by
    unfold run_at_time_custom
    cases hsub : subset_input_files r.compare_time_info r.all_files
        r.write_list_file r.ti_get_seconds_from_lead time_info with
    | none => left; rfl
    | some lf =>
      by_cases h1 : r.find_and_check_output_file time_info
      · by_cases h2 : r.set_data_field time_info
        · right; right; right; simp [h1, h2, full_trace]
        · right; right; left; simp [h1, h2, full_trace]
      · right; left; simp [h1, full_trace]
  refine ⟨?_, ?_, by decide, by decide⟩
  · rcases htr with h | h | h | h
    · exact ⟨2, h⟩
    · exact ⟨3, h⟩
    · exact ⟨4, h⟩
    · exact ⟨9, by rw [h]; rfl⟩
  · intro hex
    rcases htr with h | h | h | h
    · rw [h] at hex; exact absurd hex (by decide)
    · rw [h] at hex; exact absurd hex (by decide)
    · rw [h] at hex; exact absurd hex (by decide)
    · exact h

/-- Witness for C8: in a concrete run where every stage succeeds, execution
is reached and the trace is exactly the full in-order sequence. -/
theorem run_at_time_custom_order_witness :
    (run_at_time_custom all_ok_run 0 ti_all_wild).1 = full_trace :=
  (run_at_time_custom_order all_ok_run 0 ti_all_wild).2.1 (by decide)

/-- C1 (code bug): the manifest write of `analysis_by_lead_time` opens the
ASCII file in append mode, so a second invocation with the same path sequence
appends after the first invocation's content instead of rebuilding from
empty: the file then holds the block twice, while the spec-mandated
`writeManifest` produces the single block both times. -/
theorem write_tiles_ascii_file_appends :
    write_tiles_ascii_file
        (write_tiles_ascii_file "" (tile_lines ["FCST_TILE_F000.grb2"]))
        (tile_lines ["FCST_TILE_F000.grb2"]) =
      "FCST_TILE_F000.grb2\nFCST_TILE_F000.grb2\n" ∧
    write_tiles_ascii_file "" (tile_lines ["FCST_TILE_F000.grb2"]) =
      "FCST_TILE_F000.grb2\n" ∧
    writeManifest ["FCST_TILE_F000.grb2"] = "FCST_TILE_F000.grb2\n" :=
  ⟨rfl, rfl, rfl⟩

theorem run_series_analysis_cmds_ok (codes : List Int)
    (h : ∀ c ∈ codes, c = 0) :
    run_series_analysis_cmds codes = Except.ok () := by
  induction codes with
  | nil => rfl
  | cons c rest ih =>
    have hc : c = 0 := h c (List.mem_cons_self c rest)
    simp only [run_series_analysis_cmds, hc, if_pos]
    exact ih fun x hx => h x (List.mem_cons_of_mem c hx)

/-- C2 counterexample: in a two-hour batch whose first hour's subprocess
exits 1, the uncaught `CalledProcessError` escapes the forecast-hour loop:
only one of the two runtimes is iterated, so a single runtime's failure does
abort the batch. -/
theorem runtime_loop_aborts_on_nonzero_exit :
    failing_batch.length = 2 ∧
    runtime_loop failing_batch = (1, some 1) :=
  ⟨rfl, rfl⟩

/-- C2 as amended: the soft per-runtime conditions are contained — empty
FCST or ANLY tile strings `continue` to the next hour, and `IOError` during
manifest writing is caught and logged — so whenever every subprocess exits 0
the loop iterates the entire batch; but a non-zero subprocess exit raises an
uncaught `CalledProcessError` that aborts the remaining runtimes. -/
theorem runtime_loop_completes_when_exits_zero (ocs : List FhrOutcome)
    (h : ∀ oc ∈ ocs, ∀ c ∈ oc.exit_codes, c = 0) :
    runtime_loop ocs = (ocs.length, none) := by
  induction ocs with
  | nil => rfl
  | cons oc rest ih =>
    have hoc : process_fhr oc = Except.ok () := by
      unfold process_fhr
      by_cases h1 : oc.fcst_tiles.isEmpty
      · simp [h1]
      · by_cases h2 : oc.anly_tiles.isEmpty
        · simp [h1, h2]
        · simp [h1, h2]
          exact run_series_analysis_cmds_ok oc.exit_codes
            (h oc (List.mem_cons_self oc rest))
    simp [runtime_loop, hoc,
      ih fun x hx => h x (List.mem_cons_of_mem oc hx)]

/-- Witness for the amended C2: a batch containing an empty-tiles hour and an
hour whose manifest write fails with `IOError`, with all exit codes 0, is
iterated to the end with no escaped error. -/
theorem runtime_loop_completes_witness :
    runtime_loop contained_batch = (2, none) :=
  runtime_loop_completes_when_exits_zero contained_batch (by decide)

theorem env_get_env_set_same (env : EnvMap) (key value : String) :
    env_get (env_set env key value) key = some value := by
  induction env with
  | nil => simp [env_set, env_get]
  | cons p rest ih =>
    rcases p with ⟨k, v⟩
    by_cases h : k = key
    · simp [env_set, env_get, h]
    · simp [env_set, env_get, h, ih]

theorem env_get_env_set_other (env : EnvMap) (key value other : String)
    (h : other ≠ key) :
    env_get (env_set env key value) other = env_get env other := by
  induction env with
  | nil =>
    have hko : ¬key = other := fun he => h he.symm
    simp [env_set, env_get, hko]
  | cons p rest ih =>
    rcases p with ⟨k, v⟩
    by_cases hk : k = key
    · subst hk
      have hko : ¬k = other := fun he => h he.symm
      simp [env_set, env_get, hko]
    · simp only [env_set, hk, if_neg]
      by_cases ho : k = other
      · simp [env_get, ho]
      · simp [env_get, ho, ih]

/-- C5 counterexample: the per-variable environment writes of
`analysis_by_lead_time` mutate the global process environment — starting from
an environment with no NAME binding, the code leaves NAME bound (and line
71-73 leaves STAT_LIST bound) after the call, with no restore anywhere in the
source — so building the env values is not pure and is not scoped to the
single subprocess invocation. -/
theorem series_env_mutates_global_environment :
    env_get (set_series_var_env [] "TMP" "Z2" false) "NAME" = some "TMP" ∧
    env_get ([] : EnvMap) "NAME" = none ∧
    env_get (set_stat_list_env [] "RMSE") "STAT_LIST" = some "RMSE" ∧
    env_get ([] : EnvMap) "STAT_LIST" = none := by
  refine ⟨?_, rfl, rfl, rfl⟩
  rfl

/-- C5 as amended: `GridDiagWrapper.set_environment_variables` only
accumulates into the wrapper's env var dict and leaves the process
environment untouched, but `analysis_by_lead_time` applies its values by
mutating the global process environment: after the per-variable writes, NAME
and LEVEL remain bound in the process environment (NAME to `name_level` when
regridding with the MET tool), unscoped and unrestored. -/
theorem series_env_mutation_persists (process_env : EnvMap)
    (name level : String) (regrid_with_MET_tool : Bool)
    (super_env : EnvMap → EnvMap) (c : GridDiagCDict) (s : EnvState) :
    env_get (set_series_var_env process_env name level regrid_with_MET_tool)
        "NAME" =
      some (if regrid_with_MET_tool then name ++ "_" ++ level else name) ∧
    env_get (set_series_var_env process_env name level regrid_with_MET_tool)
        "LEVEL" = some level ∧
    (grid_diag_set_environment_variables super_env c s).process_env =
      s.process_env := by
  refine ⟨?_, ?_, ?_⟩
  · unfold set_series_var_env
    by_cases hr : regrid_with_MET_tool
    · simp [hr, env_get_env_set_same]
    · simp only [hr, Bool.false_eq_true, if_false, if_neg]
      rw [env_get_env_set_other _ "LEVEL" level "NAME" (by decide)]
      exact env_get_env_set_same _ "NAME" name
  · unfold set_series_var_env
    by_cases hr : regrid_with_MET_tool
    · simp only [hr, if_pos]
      rw [env_get_env_set_other _ "NAME" (name ++ "_" ++ level) "LEVEL"
        (by decide)]
      exact env_get_env_set_same _ "LEVEL" level
    · simp only [hr, Bool.false_eq_true, if_false, if_neg]
      exact env_get_env_set_same _ "LEVEL" level
  · simp [grid_diag_set_environment_variables, add_env_var]

end METplus
